import Mathlib

/-!
Verification of the webhook event dispatcher and per-event handling policies
of the gemini-github-integration repository, as a shallow embedding.

Source files embedded:
- gemini_github_bot.py  (GitHubEvent, GeminiClient, GitHubIntegration, GeminiGitHubBot)
- cloud_function.py     (process_github_event, handle_push_event, handle_release_event)

Modelling conventions:
- A webhook payload is a JSON-like value (Json below).  Python dictionary
  access d[k] and d.get(k, default) are embedded as pyGetItem and pyGetD,
  returning Except PyErr to model KeyError / AttributeError / TypeError.
- The two external SDKs (the Vertex AI generative model and the GitHub
  client plus the requests library) are modelled as an Oracle: a record of
  functions, one per raw remote call, each returning Except PyErr so that
  any call may raise.  Quantifying a theorem over the Oracle quantifies
  over every possible behaviour of the remote services.
- Each handler returns (trace, result): the ordered list of collaborator
  operations it invoked, and Except PyErr Bool, where Except.error models a
  Python exception escaping the handler and Except.ok b a normal return.
-/

/-- JSON-like value, the shape of a decoded webhook body. -/
inductive Json where
  | null : Json
  | bool : Bool → Json
  | num : Int → Json
  | str : String → Json
  | arr : List Json → Json
  | obj : List (String × Json) → Json

/-- Python exceptions that the embedded code can raise. -/
inductive PyErr where
  | keyError : String → PyErr
  | typeError : String → PyErr
  | attributeError : String → PyErr
  | apiError : String → PyErr
deriving DecidableEq

/-- Python str(e) for an exception, as used in error-message formatting. -/
def PyErr.toMessage : PyErr → String
  | .keyError k => "\x27" ++ k ++ "\x27"
  | .typeError m => m
  | .attributeError m => m
  | .apiError m => m

/-- Python truthiness of a JSON value. -/
def Json.truthy : Json → Bool
  | .null => false
  | .bool b => b
  | .num n => n != 0
  | .str s => s != ""
  | .arr xs => !xs.isEmpty
  | .obj kvs => !kvs.isEmpty

/-- Python x or y. -/
def pyOr (a b : Json) : Json := if a.truthy then a else b

/-- Python d[k]: KeyError when the key is missing, TypeError when the value
is not a dictionary. -/
def pyGetItem (d : Json) (k : String) : Except PyErr Json :=
  match d with
  | .obj kvs =>
    match kvs.find? (fun kv => kv.fst == k) with
    | some kv => .ok kv.snd
    | none => .error (.keyError k)
  | _ => .error (.typeError "object is not subscriptable")

/-- Python d.get(k, default): AttributeError when the value is not a
dictionary. -/
def pyGetD (d : Json) (k : String) (default : Json) : Except PyErr Json :=
  match d with
  | .obj kvs =>
    match kvs.find? (fun kv => kv.fst == k) with
    | some kv => .ok kv.snd
    | none => .ok default
  | _ => .error (.attributeError "object has no attribute get")

/-- Python iteration over a value: lists yield elements, strings yield
one-character strings, dictionaries yield their keys; other values raise
TypeError. -/
def pyIter : Json → Except PyErr (List Json)
  | .arr xs => .ok xs
  | .str s => .ok (s.toList.map (fun c => .str (String.mk [c])))
  | .obj kvs => .ok (kvs.map (fun kv => .str kv.fst))
  | _ => .error (.typeError "object is not iterable")

/-- Python a + b on payload values: list and string concatenation, TypeError
otherwise. -/
def pyConcat : Json → Json → Except PyErr Json
  | .arr a, .arr b => .ok (.arr (a ++ b))
  | .str a, .str b => .ok (.str (a ++ b))
  | _, _ => .error (.typeError "unsupported operand types for +")

mutual

/-- Python repr of a JSON value (used by str for non-string values). -/
def pyRepr : Json → String
  | .null => "None"
  | .bool true => "True"
  | .bool false => "False"
  | .num n => toString n
  | .str s => "\x27" ++ s ++ "\x27"
  | .arr xs => "[" ++ pyReprList xs ++ "]"
  | .obj kvs => "\x7b" ++ pyReprObj kvs ++ "\x7d"

/-- Comma-separated reprs of list elements. -/
def pyReprList : List Json → String
  | [] => ""
  | [x] => pyRepr x
  | x :: rest => pyRepr x ++ ", " ++ pyReprList rest

/-- Comma-separated reprs of dictionary entries. -/
def pyReprObj : List (String × Json) → String
  | [] => ""
  | [kv] => "\x27" ++ kv.fst ++ "\x27: " ++ pyRepr kv.snd
  | kv :: rest => "\x27" ++ kv.fst ++ "\x27: " ++ pyRepr kv.snd ++ ", " ++ pyReprObj rest

end

/-- Python str of a JSON value, as interpolated by an f-string. -/
def pyStr : Json → String
  | .str s => s
  | j => pyRepr j

/-- GitHubEvent dataclass from gemini_github_bot.py (the timestamp field is
set on construction and never read by any handler, so it is omitted). -/
structure GitHubEvent where
  event_type : String
  repository : String
  action : String
  data : Json

/-- Repository handle returned by github.get_repo. -/
structure Repo where
  full_name : Json

/-- Pull-request handle returned by repo.get_pull; diff_url is the only
field the embedded code reads. -/
structure Pull where
  diff_url : String

/-- Issue handle returned by repo.get_issue. -/
structure Issue where
  id : Json

/-- HTTP response from requests.get. -/
structure HttpResp where
  status : Int
  text : String

/-- One repository content entry returned by repo.get_contents; decoded is
the result of decoded_content.decode, which may itself raise. -/
structure ContentFile where
  ftype : String
  name : String
  path : String
  size : Int
  decoded : Except PyErr String

/-- File record built by get_repository_files. -/
structure PyFile where
  path : String
  content : String
  size : Int

/-- External world: one function per raw remote call made by the embedded
code.  Every call may raise (Except.error). -/
structure Oracle where
  token : String
  generateContent : String → Except PyErr String
  getRepo : Json → Except PyErr Repo
  getPull : Repo → Json → Except PyErr Pull
  httpGet : String → String → Except PyErr HttpResp
  createReview : Pull → String → String → Except PyErr Unit
  getIssue : Repo → Json → Except PyErr Issue
  createComment : Issue → String → Except PyErr Unit
  getContents : Repo → Except PyErr (List ContentFile)

/-- Collaborator-level operations, recorded in handler traces. -/
inductive Call where
  | gen : String → Call
  | getDiff : Json → Json → Call
  | postReview : Json → Json → String → Call
  | createIssueComment : Json → Json → String → Call
  | getRepoFiles : Json → List String → Call

/-- True for a text-generation call. -/
def Call.isGen : Call → Bool
  | .gen _ => true
  | _ => false

/-- True for a review-post call. -/
def Call.isPostReview : Call → Bool
  | .postReview _ _ _ => true
  | _ => false

/-- requests Response.raise_for_status: raises for 4xx and 5xx status. -/
def raiseForStatus (r : HttpResp) : Except PyErr Unit :=
  if 400 ≤ r.status ∧ r.status < 600 then
    .error (.apiError ("HTTP error " ++ toString r.status))
  else
    .ok ()

/-- Whether Except holds a value. -/
def exceptIsOk {α : Type} : Except PyErr α → Bool
  | .ok _ => true
  | .error _ => false

/-!
GitHubIntegration methods (gemini_github_bot.py, lines 124-201).  Each
method is a try-block body (the raw remote-call sequence, which may raise)
wrapped so that any exception is caught and replaced by a default value.
-/

/-- Body of GitHubIntegration.get_pull_request_diff before the except
clause: get_repo, get_pull, requests.get on the diff URL with the token
header, raise_for_status, then the response text. -/
def get_pull_request_diff_body (o : Oracle) (repo_name pr_number : Json) :
    Except PyErr String := do
  let repo ← o.getRepo repo_name
  let pr ← o.getPull repo pr_number
  let response ← o.httpGet pr.diff_url o.token
  raiseForStatus response
  pure response.text

/-- GitHubIntegration.get_pull_request_diff: returns empty text when any
step of the body raises. -/
def get_pull_request_diff (o : Oracle) (repo_name pr_number : Json) : String :=
  match get_pull_request_diff_body o repo_name pr_number with
  | .ok t => t
  | .error _ => ""

/-- Body of GitHubIntegration.post_review_comment before the except clause:
get_repo, get_pull, create_review with event COMMENT, then True. -/
def post_review_comment_body (o : Oracle) (repo_name pr_number : Json)
    (comment : String) : Except PyErr Bool := do
  let repo ← o.getRepo repo_name
  let pr ← o.getPull repo pr_number
  o.createReview pr comment "COMMENT"
  pure true

/-- GitHubIntegration.post_review_comment: returns False when any step of
the body raises. -/
def post_review_comment (o : Oracle) (repo_name pr_number : Json)
    (comment : String) : Bool :=
  match post_review_comment_body o repo_name pr_number comment with
  | .ok b => b
  | .error _ => false

/-- Body of GitHubIntegration.create_issue_comment before the except
clause: get_repo, get_issue, create_comment, then True. -/
def create_issue_comment_body (o : Oracle) (repo_name issue_number : Json)
    (comment : String) : Except PyErr Bool := do
  let repo ← o.getRepo repo_name
  let issue ← o.getIssue repo issue_number
  o.createComment issue comment
  pure true

/-- GitHubIntegration.create_issue_comment: returns False when any step of
the body raises. -/
def create_issue_comment (o : Oracle) (repo_name issue_number : Json)
    (comment : String) : Bool :=
  match create_issue_comment_body o repo_name issue_number comment with
  | .ok b => b
  | .error _ => false

/-- Python str.endswith on the character data (structurally recursive so
that it reduces during kernel evaluation). -/
def pyEndsWith (s suffix : String) : Bool := suffix.data.isSuffixOf s.data

/-- Filter from get_repository_files: accept when the extension list is
falsy (None or empty) or the file name ends with one of the extensions. -/
def extMatches : Option (List String) → String → Bool
  | none, _ => true
  | some l, nm => l.isEmpty || l.any (fun e => pyEndsWith nm e)

/-- Loop of get_repository_files over repository contents: keep entries of
type file passing the extension filter, decoding their content (which may
raise). -/
def buildFiles (exts : Option (List String)) : List ContentFile → Except PyErr (List PyFile)
  | [] => .ok []
  | cf :: rest =>
    if cf.ftype = "file" then
      if extMatches exts cf.name then do
        let txt ← cf.decoded
        let fs ← buildFiles exts rest
        pure (⟨cf.path, txt, cf.size⟩ :: fs)
      else buildFiles exts rest
    else buildFiles exts rest

/-- Body of GitHubIntegration.get_repository_files before the except
clause: get_repo, get_contents at the repository root, then the filter
loop. -/
def get_repository_files_body (o : Oracle) (repo_name : Json)
    (file_extensions : Option (List String)) : Except PyErr (List PyFile) := do
  let repo ← o.getRepo repo_name
  let contents ← o.getContents repo
  buildFiles file_extensions contents

/-- GitHubIntegration.get_repository_files: returns an empty list when any
step of the body raises. -/
def get_repository_files (o : Oracle) (repo_name : Json)
    (file_extensions : Option (List String)) : List PyFile :=
  match get_repository_files_body o repo_name file_extensions with
  | .ok fs => fs
  | .error _ => []

/-!
GeminiClient methods (gemini_github_bot.py, lines 33-96).  Both wrap the
raw generate_content call in a try-block that converts any exception into
an error-message string, so neither ever raises to its caller.
-/

/-- Prompt built by GeminiClient.analyze_code_changes (exact f-string text,
including the indentation of the Python source). -/
def analyzeCodeChangesPromptText (diff_content file_path : String) : String :=
  "\n        You are an expert code reviewer. Analyze the following code diff and provide:\n        1. Code quality assessment\n        2. Potential bugs or issues\n        3. Security concerns\n        4. Performance implications\n        5. Best practice recommendations\n        \n        File: "
    ++ file_path
    ++ "\n        \n        Diff:\n        "
    ++ diff_content
    ++ "\n        \n        Provide your analysis in markdown format with clear sections.\n        "

/-- GeminiClient.analyze_code_changes: one generate_content call; on
success the response text, on any exception the error-message string. -/
def analyze_code_changes (o : Oracle) (diff_content file_path : String) :
    List Call × String :=
  ([Call.gen (analyzeCodeChangesPromptText diff_content file_path)],
   match o.generateContent (analyzeCodeChangesPromptText diff_content file_path) with
   | .ok text => text
   | .error e => "Error during analysis: " ++ e.toMessage)

/-- Prompt built by GeminiClient.generate_documentation (exact f-string
text). -/
def documentationPromptText (code_content file_path : String) : String :=
  "\n        Generate comprehensive documentation for the following code:\n        \n        File: "
    ++ file_path
    ++ "\n        \n        Code:\n        "
    ++ code_content
    ++ "\n        \n        Include:\n        1. Purpose and functionality\n        2. Parameters and return values\n        3. Usage examples\n        4. Dependencies\n        5. Notes and considerations\n        \n        Format as markdown documentation.\n        "

/-- GeminiClient.generate_documentation: one generate_content call; on
success the response text, on any exception the error-message string. -/
def generate_documentation (o : Oracle) (code_content file_path : String) :
    List Call × String :=
  ([Call.gen (documentationPromptText code_content file_path)],
   match o.generateContent (documentationPromptText code_content file_path) with
   | .ok text => text
   | .error e => "Error generating documentation: " ++ e.toMessage)

/-!
GeminiGitHubBot handlers (gemini_github_bot.py, lines 204-289).
-/

/-- Field extraction at the top of handle_pull_request:
data[repository][full_name] then data[pull_request][number]. -/
def prExtract (d : Json) : Except PyErr (Json × Json) := do
  let repoObj ← pyGetItem d "repository"
  let repoName ← pyGetItem repoObj "full_name"
  let prObj ← pyGetItem d "pull_request"
  let prNumber ← pyGetItem prObj "number"
  pure (repoName, prNumber)

/-- Markdown review comment template of handle_pull_request (exact
f-string text). -/
def prReviewCommentText (analysis : String) : String :=
  "\n## 🤖 AI Code Review by Gemini\n\n"
    ++ analysis
    ++ "\n\n---\n*This review was automatically generated by Gemini AI. Please verify all suggestions before implementing.*\n        "

/-- GeminiGitHubBot.handle_pull_request: no-op success unless the action is
opened or synchronize; extracts repository and PR number (which may raise);
fetches the diff; empty diff returns False; otherwise analyzes the diff and
posts the review comment, returning the post result. -/
def handle_pull_request (o : Oracle) (ev : GitHubEvent) :
    List Call × Except PyErr Bool :=
  if ev.action = "opened" ∨ ev.action = "synchronize" then
    match prExtract ev.data with
    | .error e => ([], .error e)
    | .ok (repoName, prNumber) =>
      let diff_content := get_pull_request_diff o repoName prNumber
      if diff_content = "" then
        ([Call.getDiff repoName prNumber], .ok false)
      else
        let ar := analyze_code_changes o diff_content ("PR #" ++ pyStr prNumber)
        let comment := prReviewCommentText ar.2
        (Call.getDiff repoName prNumber :: ar.1 ++ [Call.postReview repoName prNumber comment],
         .ok (post_review_comment o repoName prNumber comment))
  else ([], .ok true)

/-- Field extraction at the top of handle_issue: data[repository][full_name]
then data[issue][number], data[issue][title], data[issue][body]. -/
def issueExtract (d : Json) : Except PyErr (Json × Json × Json × Json) := do
  let repoObj ← pyGetItem d "repository"
  let repoName ← pyGetItem repoObj "full_name"
  let issueObj ← pyGetItem d "issue"
  let issueNumber ← pyGetItem issueObj "number"
  let issueTitle ← pyGetItem issueObj "title"
  let issueBody ← pyGetItem issueObj "body"
  pure (repoName, issueNumber, issueTitle, issueBody)

/-- Triage prompt built by handle_issue (exact f-string text). -/
def issuePromptText (title body : String) : String :=
  "\n        Analyze this GitHub issue and provide helpful suggestions:\n        \n        Title: "
    ++ title
    ++ "\n        Description: "
    ++ body
    ++ "\n        \n        Provide:\n        1. Issue classification (bug/feature/question/documentation)\n        2. Potential solutions or next steps\n        3. Related documentation or resources\n        4. Priority assessment\n        \n        Be helpful and constructive.\n        "

/-- Markdown issue comment template of handle_issue (exact f-string
text). -/
def issueCommentText (analysis : String) : String :=
  "\n## 🤖 AI Issue Analysis\n\n"
    ++ analysis
    ++ "\n\n---\n*This analysis was automatically generated by Gemini AI.*\n            "

/-- GeminiGitHubBot.handle_issue: no-op success unless the action is
opened; extracts fields (which may raise; body falls back to the empty
string only when present and falsy); generates an analysis inside a
try-block whose except clause returns False; posts the issue comment and
returns the post result. -/
def handle_issue (o : Oracle) (ev : GitHubEvent) :
    List Call × Except PyErr Bool :=
  if ev.action = "opened" then
    match issueExtract ev.data with
    | .error e => ([], .error e)
    | .ok (repoName, issueNumber, issueTitle, issueBody) =>
      let prompt := issuePromptText (pyStr issueTitle) (pyStr (pyOr issueBody (Json.str "")))
      match o.generateContent prompt with
      | .ok text =>
        let comment := issueCommentText text
        ([Call.gen prompt, Call.createIssueComment repoName issueNumber comment],
         .ok (create_issue_comment o repoName issueNumber comment))
      | .error _ => ([Call.gen prompt], .ok false)
  else ([], .ok true)

/-!
Module-level handlers of cloud_function.py (lines 99-172) and the
dispatcher (lines 72-96).
-/

/-- Documentation suffix check from handle_push_event: f.endswith on the
tuple of documentation extensions; raises AttributeError on a non-string,
with the short-circuit evaluation order of any(). -/
def anyEndsWithDoc : List Json → Except PyErr Bool
  | [] => .ok false
  | Json.str s :: rest =>
    if pyEndsWith s ".md" || pyEndsWith s ".rst" || pyEndsWith s ".txt" then .ok true
    else anyEndsWithDoc rest
  | _ :: _ => .error (.attributeError "object has no attribute endswith")

/-- Commit-scanning loop of handle_push_event: for each commit, concatenate
its modified and added lists and stop at the first commit touching a
documentation-suffixed file. -/
def scanList : List Json → Except PyErr Bool
  | [] => .ok false
  | commit :: rest => do
    let modified ← pyGetD commit "modified" (Json.arr [])
    let added ← pyGetD commit "added" (Json.arr [])
    let modified_files ← pyConcat modified added
    let fl ← pyIter modified_files
    let anyDoc ← anyEndsWithDoc fl
    if anyDoc then pure true else scanList rest

/-- Commit scan of handle_push_event: data.get(commits, []) then the
commit loop. -/
def pushScan (d : Json) : Except PyErr Bool := do
  let commitsJ ← pyGetD d "commits" (Json.arr [])
  let commits ← pyIter commitsJ
  scanList commits

/-- Source-extension whitelist passed to get_repository_files by
handle_push_event. -/
def pushExts : List String := [".py", ".js", ".java", ".go"]

/-- Per-file documentation loop of handle_push_event over the first five
fetched files; each iteration invokes generate_documentation (whose own
try-block means the per-file try/except in the source never fires). -/
def pushDocLoop (o : Oracle) : List PyFile → List Call
  | [] => []
  | f :: rest => (generate_documentation o f.content f.path).1 ++ pushDocLoop o rest

/-- cloud_function.handle_push_event: no-op success unless
data.get(ref) equals refs/heads/main; scans commits for documentation
files (which may raise); when found, fetches repository files with the
source-extension whitelist and generates documentation for the first five;
always returns True when the scan completes. -/
def handle_push_event (o : Oracle) (ev : GitHubEvent) :
    List Call × Except PyErr Bool :=
  match pyGetD ev.data "ref" Json.null with
  | .error e => ([], .error e)
  | .ok (Json.str s) =>
    if s = "refs/heads/main" then
      match pushScan ev.data with
      | .error e => ([], .error e)
      | .ok true =>
        let files := get_repository_files o (Json.str ev.repository) (some pushExts)
        (Call.getRepoFiles (Json.str ev.repository) pushExts :: pushDocLoop o (files.take 5),
         .ok true)
      | .ok false => ([], .ok true)
    else ([], .ok true)
  | .ok _ => ([], .ok true)

/-- Tag extraction of handle_release_event: data.get(release, empty dict)
then release.get(tag_name, empty string). -/
def releaseTag (d : Json) : Except PyErr Json := do
  let release ← pyGetD d "release" (Json.obj [])
  pyGetD release "tag_name" (Json.str "")

/-- Fixed part of the release-notes prompt before the tag name (exact
f-string text). -/
def releasePromptPre : String :=
  "\n    Generate comprehensive release notes for version "

/-- Fixed part of the release-notes prompt after the tag name (exact
f-string text). -/
def releasePromptPost : String :=
  " based on recent commits.\n    Include:\n    1. New features\n    2. Bug fixes\n    3. Breaking changes\n    4. Improvements\n    5. Security updates\n    \n    Make it user-friendly and highlight important changes.\n    "

/-- Release-notes prompt of handle_release_event. -/
def releasePromptText (tag : String) : String :=
  releasePromptPre ++ tag ++ releasePromptPost

/-- cloud_function.handle_release_event: no-op success unless the action is
published; extracts the tag (which may raise); one generate_content call in
a try-block: success returns True, any exception returns False. -/
def handle_release_event (o : Oracle) (ev : GitHubEvent) :
    List Call × Except PyErr Bool :=
  if ev.action = "published" then
    match releaseTag ev.data with
    | .error e => ([], .error e)
    | .ok tagJ =>
      let prompt := releasePromptText (pyStr tagJ)
      match o.generateContent prompt with
      | .ok _ => ([Call.gen prompt], .ok true)
      | .error _ => ([Call.gen prompt], .ok false)
  else ([], .ok true)

/-- Dispatch table inside the try-block of process_github_event: route by
event_type, unmatched types are a no-op success. -/
def dispatchInner (o : Oracle) (ev : GitHubEvent) :
    List Call × Except PyErr Bool :=
  if ev.event_type = "pull_request" then handle_pull_request o ev
  else if ev.event_type = "issues" then handle_issue o ev
  else if ev.event_type = "push" then handle_push_event o ev
  else if ev.event_type = "release" then handle_release_event o ev
  else ([], .ok true)

/-- cloud_function.process_github_event: the dispatch table wrapped in a
try-block whose except clause logs and returns False, so the dispatcher
itself is total with a plain Bool result. -/
def process_github_event (o : Oracle) (ev : GitHubEvent) : List Call × Bool :=
  ((dispatchInner o ev).1,
   match (dispatchInner o ev).2 with
   | .ok b => b
   | .error _ => false)

/-!
Concrete fixtures: sample oracles and events used by witnesses and
counterexamples.
-/

/-- Oracle in which every remote call fails. -/
def oFail : Oracle where
  token := "tok"
  generateContent := fun _ => .error (.apiError "generation unavailable")
  getRepo := fun _ => .error (.apiError "404")
  getPull := fun _ _ => .error (.apiError "404")
  httpGet := fun _ _ => .error (.apiError "404")
  createReview := fun _ _ _ => .error (.apiError "403")
  getIssue := fun _ _ => .error (.apiError "404")
  createComment := fun _ _ => .error (.apiError "403")
  getContents := fun _ => .error (.apiError "404")

/-- Repository contents fixture: seven source files, one documentation
file and one directory entry. -/
def cfilesDemo : List ContentFile :=
  [⟨"file", "a.py", "a.py", 10, .ok "print(1)"⟩,
   ⟨"file", "b.py", "b.py", 11, .ok "print(2)"⟩,
   ⟨"file", "c.py", "c.py", 12, .ok "print(3)"⟩,
   ⟨"file", "d.js", "d.js", 13, .ok "x = 1"⟩,
   ⟨"file", "e.go", "e.go", 14, .ok "package main"⟩,
   ⟨"file", "f.java", "f.java", 15, .ok "class F"⟩,
   ⟨"file", "g.py", "g.py", 16, .ok "print(7)"⟩,
   ⟨"file", "README.md", "README.md", 5, .ok "hello"⟩,
   ⟨"dir", "docs", "docs", 0, .ok ""⟩]

/-- Oracle in which every remote call succeeds. -/
def oOk : Oracle where
  token := "tok"
  generateContent := fun _ => .ok "Looks fine."
  getRepo := fun rn => .ok ⟨rn⟩
  getPull := fun _ _ => .ok ⟨"https://example.test/diff"⟩
  httpGet := fun _ _ => .ok ⟨200, "+ print(hi)"⟩
  createReview := fun _ _ _ => .ok ()
  getIssue := fun _ n => .ok ⟨n⟩
  createComment := fun _ _ => .ok ()
  getContents := fun _ => .ok cfilesDemo

/-- Oracle in which only text generation fails; all GitHub calls
succeed. -/
def oGenFail : Oracle where
  token := "tok"
  generateContent := fun _ => .error (.apiError "boom")
  getRepo := fun rn => .ok ⟨rn⟩
  getPull := fun _ _ => .ok ⟨"https://example.test/diff"⟩
  httpGet := fun _ _ => .ok ⟨200, "+ print(hi)"⟩
  createReview := fun _ _ _ => .ok ()
  getIssue := fun _ n => .ok ⟨n⟩
  createComment := fun _ _ => .ok ()
  getContents := fun _ => .ok cfilesDemo

/-- Well-formed pull_request opened event. -/
def evPR : GitHubEvent where
  event_type := "pull_request"
  repository := "a/b"
  action := "opened"
  data := Json.obj
    [("repository", Json.obj [("full_name", Json.str "a/b")]),
     ("pull_request", Json.obj [("number", Json.num 42)]),
     ("action", Json.str "opened")]

/-- pull_request opened event whose payload lacks the repository key, so
the derived repository field is the empty string. -/
def evPRNoRepo : GitHubEvent where
  event_type := "pull_request"
  repository := ""
  action := "opened"
  data := Json.obj
    [("pull_request", Json.obj [("number", Json.num 7)]),
     ("action", Json.str "opened")]

/-- pull_request synchronize event whose payload lacks the repository key,
so the derived repository field is the empty string. -/
def evPRSyncNoRepo : GitHubEvent where
  event_type := "pull_request"
  repository := ""
  action := "synchronize"
  data := Json.obj
    [("pull_request", Json.obj [("number", Json.num 8)]),
     ("action", Json.str "synchronize")]

/-- issues opened event whose payload lacks the repository key, so the
derived repository field is the empty string. -/
def evIssueNoRepo : GitHubEvent where
  event_type := "issues"
  repository := ""
  action := "opened"
  data := Json.obj
    [("issue", Json.obj [("number", Json.num 2), ("title", Json.str "t")]),
     ("action", Json.str "opened")]

/-- issues opened event whose issue body is present but null. -/
def evIssueNull : GitHubEvent where
  event_type := "issues"
  repository := "a/b"
  action := "opened"
  data := Json.obj
    [("repository", Json.obj [("full_name", Json.str "a/b")]),
     ("issue", Json.obj
       [("number", Json.num 3),
        ("title", Json.str "crash on start"),
        ("body", Json.null)]),
     ("action", Json.str "opened")]

/-- issues opened event whose payload has no issue body key at all. -/
def evIssueAbsent : GitHubEvent where
  event_type := "issues"
  repository := "a/b"
  action := "opened"
  data := Json.obj
    [("repository", Json.obj [("full_name", Json.str "a/b")]),
     ("issue", Json.obj
       [("number", Json.num 3),
        ("title", Json.str "crash on start")]),
     ("action", Json.str "opened")]

/-- push event on the main branch with a documentation file modified. -/
def evPush : GitHubEvent where
  event_type := "push"
  repository := "a/b"
  action := ""
  data := Json.obj
    [("ref", Json.str "refs/heads/main"),
     ("repository", Json.obj [("full_name", Json.str "a/b")]),
     ("commits", Json.arr
       [Json.obj
         [("modified", Json.arr [Json.str "src/util.py", Json.str "README.md"]),
          ("added", Json.arr [])]])]

/-- release published event with a concrete tag. -/
def evRelease : GitHubEvent where
  event_type := "release"
  repository := "a/b"
  action := "published"
  data := Json.obj
    [("repository", Json.obj [("full_name", Json.str "a/b")]),
     ("release", Json.obj [("tag_name", Json.str "v1.2.3")]),
     ("action", Json.str "published")]

/-- Event of a type outside the dispatch table. -/
def evStar : GitHubEvent where
  event_type := "watch"
  repository := "a/b"
  action := "started"
  data := Json.obj [("repository", Json.obj [("full_name", Json.str "a/b")])]

/-- Event failing every applicability filter at once: action closed and a
non-main push ref. -/
def evClosed : GitHubEvent where
  event_type := "pull_request"
  repository := "a/b"
  action := "closed"
  data := Json.obj
    [("repository", Json.obj [("full_name", Json.str "a/b")]),
     ("ref", Json.str "refs/heads/dev"),
     ("action", Json.str "closed")]

/-!
Claim theorems.
-/

/-- Bind on an Except error propagates the error. -/
theorem except_error_bind {α β : Type} (e : PyErr) (f : α → Except PyErr β) :
    ((Except.error e : Except PyErr α) >>= f) = Except.error e := rfl

/-- C1: for every event and every behaviour of the external services, if
the selected handling policy raises (the dispatch table yields an error),
process_github_event returns the failed result false; and its Bool return
type shows no exception propagates out of the dispatcher. -/
theorem dispatcher_catches_policy_errors (o : Oracle) (ev : GitHubEvent)
    (err : PyErr) (h : (dispatchInner o ev).2 = .error err) :
    (process_github_event o ev).2 = false := by
  simp [process_github_event, h]

/-- Witness for C1: a pull_request opened event whose payload lacks the
repository key makes the policy raise KeyError, and the dispatcher returns
false. -/
theorem dispatcher_catches_policy_errors_witness :
    (dispatchInner oFail evPRNoRepo).2 = .error (PyErr.keyError "repository") ∧
    (process_github_event oFail evPRNoRepo).2 = false :=
  ⟨rfl, dispatcher_catches_policy_errors oFail evPRNoRepo (PyErr.keyError "repository") rfl⟩

/-- C2: for every event whose type is outside the dispatch table, the
dispatcher returns success with an empty trace, so no AI-generation or
Source-Host collaborator operation is invoked. -/
theorem unknown_event_type_noop_success (o : Oracle) (ev : GitHubEvent)
    (h : ev.event_type ∉ (["pull_request", "issues", "push", "release"] : List String)) :
    process_github_event o ev = ([], true) := by
  simp only [List.mem_cons, List.not_mem_nil, or_false, not_or] at h
  obtain ⟨h1, h2, h3, h4⟩ := h
  simp [process_github_event, dispatchInner, h1, h2, h3, h4]

/-- Witness for C2: a watch event is dispatched to the trivial success with
no collaborator calls. -/
theorem unknown_event_type_noop_success_witness :
    ("watch" ∉ (["pull_request", "issues", "push", "release"] : List String)) ∧
    process_github_event oFail evStar = ([], true) :=
  ⟨by decide, unknown_event_type_noop_success oFail evStar (by decide)⟩

/-- C6: every policy whose applicability filter rejects the event returns
success with an empty trace: pull_request with an action outside opened and
synchronize, issues with an action other than opened, push with a ref other
than refs/heads/main, release with an action other than published. -/
theorem filtered_events_noop_success (o : Oracle) (ev : GitHubEvent) :
    (¬(ev.action = "opened" ∨ ev.action = "synchronize") →
      handle_pull_request o ev = ([], .ok true)) ∧
    (ev.action ≠ "opened" → handle_issue o ev = ([], .ok true)) ∧
    (∀ refv : Json, pyGetD ev.data "ref" Json.null = .ok refv →
      refv ≠ Json.str "refs/heads/main" → handle_push_event o ev = ([], .ok true)) ∧
    (ev.action ≠ "published" → handle_release_event o ev = ([], .ok true)) := by
  refine ⟨fun h => ?_, fun h => ?_, fun refv h hne => ?_, fun h => ?_⟩
  · simp [handle_pull_request, h]
  · simp [handle_issue, h]
  · cases refv <;> simp_all [handle_push_event]
  · simp [handle_release_event, h]

/-- Witness for C6: an event with action closed and push ref
refs/heads/dev is rejected by all four filters with no collaborator
calls. -/
theorem filtered_events_noop_success_witness :
    (¬(evClosed.action = "opened" ∨ evClosed.action = "synchronize")) ∧
    handle_pull_request oFail evClosed = ([], .ok true) ∧
    handle_issue oFail evClosed = ([], .ok true) ∧
    handle_push_event oFail evClosed = ([], .ok true) ∧
    handle_release_event oFail evClosed = ([], .ok true) := by
  obtain ⟨c1, c2, c3, c4⟩ := filtered_events_noop_success oFail evClosed
  exact ⟨by decide, c1 (by decide), c2 (by decide),
    c3 (Json.str "refs/heads/dev") rfl (by simp), c4 (by decide)⟩

/-- C10: each GitHubIntegration wrapper is total at its interface; whenever
the underlying raw-call sequence raises, get_pull_request_diff returns
empty text, post_review_comment and create_issue_comment return false, and
get_repository_files returns the empty list. -/
theorem github_wrappers_default_on_error (o : Oracle)
    (rn pn inum : Json) (exts : Option (List String)) (comment : String)
    (e1 e2 e3 e4 : PyErr) :
    (get_pull_request_diff_body o rn pn = .error e1 →
      get_pull_request_diff o rn pn = "") ∧
    (post_review_comment_body o rn pn comment = .error e2 →
      post_review_comment o rn pn comment = false) ∧
    (create_issue_comment_body o rn inum comment = .error e3 →
      create_issue_comment o rn inum comment = false) ∧
    (get_repository_files_body o rn exts = .error e4 →
      get_repository_files o rn exts = []) := by
  refine ⟨fun h => ?_, fun h => ?_, fun h => ?_, fun h => ?_⟩
  · simp [get_pull_request_diff, h]
  · simp [post_review_comment, h]
  · simp [create_issue_comment, h]
  · simp [get_repository_files, h]

/-- Witness for C10: under the all-failing oracle every wrapper body raises
and every wrapper returns its default. -/
theorem github_wrappers_default_on_error_witness :
    get_pull_request_diff_body oFail (Json.str "a/b") (Json.num 1) =
      .error (PyErr.apiError "404") ∧
    get_pull_request_diff oFail (Json.str "a/b") (Json.num 1) = "" ∧
    post_review_comment oFail (Json.str "a/b") (Json.num 1) "c" = false ∧
    create_issue_comment oFail (Json.str "a/b") (Json.num 1) "c" = false ∧
    get_repository_files oFail (Json.str "a/b") (some pushExts) = [] := by
  obtain ⟨w1, w2, w3, w4⟩ := github_wrappers_default_on_error oFail
    (Json.str "a/b") (Json.num 1) (Json.num 1) (some pushExts) "c"
    (PyErr.apiError "404") (PyErr.apiError "404") (PyErr.apiError "404")
    (PyErr.apiError "404")
  exact ⟨rfl, w1 rfl, w2 rfl, w3 rfl, w4 rfl⟩

/-- C3: for a pull_request event with action opened or synchronize whose
field extraction succeeds, an empty fetched diff makes the policy return
false immediately, with the diff fetch as its only collaborator operation
(no generation, no review post). -/
theorem pr_empty_diff_fails_without_calls (o : Oracle) (ev : GitHubEvent)
    (repoName prNumber : Json)
    (ha : ev.action = "opened" ∨ ev.action = "synchronize")
    (hx : prExtract ev.data = .ok (repoName, prNumber))
    (hd : get_pull_request_diff o repoName prNumber = "") :
    handle_pull_request o ev = ([Call.getDiff repoName prNumber], .ok false) := by
  unfold handle_pull_request
  rw [if_pos ha]
  simp [hx, hd]

/-- Witness for C3: under the all-failing oracle the diff fetch returns
empty text and the opened pull_request policy fails with a single diff
fetch in its trace. -/
theorem pr_empty_diff_fails_without_calls_witness :
    (evPR.action = "opened" ∨ evPR.action = "synchronize") ∧
    get_pull_request_diff oFail (Json.str "a/b") (Json.num 42) = "" ∧
    handle_pull_request oFail evPR =
      ([Call.getDiff (Json.str "a/b") (Json.num 42)], .ok false) :=
  ⟨Or.inl rfl, rfl,
   pr_empty_diff_fails_without_calls oFail evPR (Json.str "a/b") (Json.num 42)
     (Or.inl rfl) rfl rfl⟩

/-- C4 counterexample: with every GitHub call succeeding and text
generation failing, the opened pull_request policy still makes a review
post (the claim says none is made) and returns success (the claim says it
returns a failed result). -/
theorem pr_generation_failure_posts_error_comment :
    (handle_pull_request oGenFail evPR).2 = .ok true ∧
    ((handle_pull_request oGenFail evPR).1.any Call.isGen) = true ∧
    ((handle_pull_request oGenFail evPR).1.any Call.isPostReview) = true :=
  ⟨rfl, rfl, rfl⟩

/-- C4 amended: when the diff is non-empty and text generation fails, the
generation wrapper converts the exception into an error-message string that
is embedded into the review comment and posted; the policy result is the
result of that post operation (a generation failure alone never fails the
policy). -/
theorem pr_generation_failure_amended (o : Oracle) (ev : GitHubEvent)
    (repoName prNumber : Json) (err : PyErr)
    (ha : ev.action = "opened" ∨ ev.action = "synchronize")
    (hx : prExtract ev.data = .ok (repoName, prNumber))
    (hd : get_pull_request_diff o repoName prNumber ≠ "")
    (hg : o.generateContent (analyzeCodeChangesPromptText
        (get_pull_request_diff o repoName prNumber)
        ("PR #" ++ pyStr prNumber)) = .error err) :
    handle_pull_request o ev =
      ([Call.getDiff repoName prNumber,
        Call.gen (analyzeCodeChangesPromptText (get_pull_request_diff o repoName prNumber)
          ("PR #" ++ pyStr prNumber)),
        Call.postReview repoName prNumber
          (prReviewCommentText ("Error during analysis: " ++ err.toMessage))],
       .ok (post_review_comment o repoName prNumber
          (prReviewCommentText ("Error during analysis: " ++ err.toMessage)))) := by
  unfold handle_pull_request
  rw [if_pos ha]
  simp [hx, hd, analyze_code_changes, hg]

/-- Witness for C4 amended: generation fails with message boom, the boom
review comment is posted successfully and the policy reports success. -/
theorem pr_generation_failure_amended_witness :
    get_pull_request_diff oGenFail (Json.str "a/b") (Json.num 42) ≠ "" ∧
    oGenFail.generateContent (analyzeCodeChangesPromptText
        (get_pull_request_diff oGenFail (Json.str "a/b") (Json.num 42))
        ("PR #" ++ pyStr (Json.num 42))) = .error (PyErr.apiError "boom") ∧
    handle_pull_request oGenFail evPR =
      ([Call.getDiff (Json.str "a/b") (Json.num 42),
        Call.gen (analyzeCodeChangesPromptText
          (get_pull_request_diff oGenFail (Json.str "a/b") (Json.num 42))
          ("PR #" ++ pyStr (Json.num 42))),
        Call.postReview (Json.str "a/b") (Json.num 42)
          (prReviewCommentText ("Error during analysis: " ++ (PyErr.apiError "boom").toMessage))],
       .ok (post_review_comment oGenFail (Json.str "a/b") (Json.num 42)
          (prReviewCommentText ("Error during analysis: " ++ (PyErr.apiError "boom").toMessage)))) :=
  ⟨by decide, rfl,
   pr_generation_failure_amended oGenFail evPR (Json.str "a/b") (Json.num 42)
     (PyErr.apiError "boom") (Or.inl rfl) rfl (by decide) rfl⟩

/-- C8: for a release event with action published whose tag extraction
succeeds, the policy makes exactly one collaborator operation, a text
generation whose prompt contains the tag name, performs no write-back, and
returns success exactly when the generation call succeeds. -/
theorem release_published_single_generation (o : Oracle) (ev : GitHubEvent)
    (tagJ : Json)
    (ha : ev.action = "published")
    (ht : releaseTag ev.data = .ok tagJ) :
    handle_release_event o ev =
      ([Call.gen (releasePromptText (pyStr tagJ))],
       .ok (exceptIsOk (o.generateContent (releasePromptText (pyStr tagJ))))) ∧
    (∃ a b : String, releasePromptText (pyStr tagJ) = a ++ pyStr tagJ ++ b) := by
  constructor
  · cases hg : o.generateContent (releasePromptText (pyStr tagJ)) with
    | ok t => simp [handle_release_event, ha, ht, hg, exceptIsOk]
    | error e => simp [handle_release_event, ha, ht, hg, exceptIsOk]
  · exact ⟨releasePromptPre, releasePromptPost, rfl⟩

/-- Witness for C8: the published release with tag v1.2.3 produces exactly
one generation call embedding the tag, and succeeds because generation
succeeds. -/
theorem release_published_single_generation_witness :
    (evRelease.action = "published") ∧
    releaseTag evRelease.data = .ok (Json.str "v1.2.3") ∧
    (handle_release_event oOk evRelease =
      ([Call.gen (releasePromptText (pyStr (Json.str "v1.2.3")))],
       .ok (exceptIsOk (oOk.generateContent
         (releasePromptText (pyStr (Json.str "v1.2.3")))))) ∧
     (∃ a b : String, releasePromptText (pyStr (Json.str "v1.2.3")) =
       a ++ pyStr (Json.str "v1.2.3") ++ b)) :=
  ⟨rfl, rfl,
   release_published_single_generation oOk evRelease (Json.str "v1.2.3") rfl rfl⟩

/-- C5 counterexample: a pull_request opened event whose payload lacks
repository.full_name (so the Event repository field is empty) makes both
the pull-request policy and the issue policy raise KeyError instead of
tolerating the absence. -/
theorem missing_repository_pr_and_issue_raise :
    evPRNoRepo.repository = "" ∧
    (handle_pull_request oFail evPRNoRepo).2 = Except.error (PyErr.keyError "repository") ∧
    (handle_issue oFail evPRNoRepo).2 = Except.error (PyErr.keyError "repository") :=
  ⟨rfl, rfl, rfl⟩

/-- C5 amended: for every event whose payload lacks the repository key,
the push and release policies tolerate the absence (their outcome does not
depend on the Event repository field), but the pull-request policy on
action opened or synchronize, and the issue policy on action opened,
re-read payload.repository.full_name with raising item access and throw
KeyError; the dispatcher converts that exception into a failed result for
the correspondingly typed events. -/
theorem repository_absence_amended (o : Oracle) (ev : GitHubEvent) (r : String)
    (hlack : pyGetItem ev.data "repository" = .error (PyErr.keyError "repository")) :
    (handle_push_event o { ev with repository := r }).2 = (handle_push_event o ev).2 ∧
    handle_release_event o { ev with repository := r } = handle_release_event o ev ∧
    (ev.action = "opened" ∨ ev.action = "synchronize" →
      (handle_pull_request o ev).2 = Except.error (PyErr.keyError "repository") ∧
      (ev.event_type = "pull_request" → (process_github_event o ev).2 = false)) ∧
    (ev.action = "opened" →
      (handle_issue o ev).2 = Except.error (PyErr.keyError "repository") ∧
      (ev.event_type = "issues" → (process_github_event o ev).2 = false)) := by
  have hpr : ev.action = "opened" ∨ ev.action = "synchronize" →
      (handle_pull_request o ev).2 = Except.error (PyErr.keyError "repository") := by
    intro ha
    unfold handle_pull_request
    rw [if_pos ha]
    simp [prExtract, hlack, except_error_bind]
  have hiss : ev.action = "opened" →
      (handle_issue o ev).2 = Except.error (PyErr.keyError "repository") := by
    intro ha
    unfold handle_issue
    rw [if_pos ha]
    simp [issueExtract, hlack, except_error_bind]
  refine ⟨?_, rfl,
    fun ha => ⟨hpr ha, fun het => ?_⟩,
    fun ha => ⟨hiss ha, fun het => ?_⟩⟩
  · cases href : pyGetD ev.data "ref" Json.null with
    | error e => simp [handle_push_event, href]
    | ok refv =>
      cases refv with
      | str s =>
        by_cases hs : s = "refs/heads/main"
        · subst hs
          cases hscan : pushScan ev.data with
          | error e => simp [handle_push_event, href, hscan]
          | ok b => cases b <;> simp [handle_push_event, href, hscan]
        · simp [handle_push_event, href, hs]
      | null => simp [handle_push_event, href]
      | bool b => simp [handle_push_event, href]
      | num n => simp [handle_push_event, href]
      | arr xs => simp [handle_push_event, href]
      | obj kvs => simp [handle_push_event, href]
  · simp [process_github_event, dispatchInner, het, hpr ha]
  · simp [process_github_event, dispatchInner, het, hiss ha]

/-- Witness for C5 amended: concrete repository-less events of action
opened, action synchronize and type issues, with every remote call
failing: push and release outcomes are unchanged by the repository field,
the pull-request policy raises on both applicable actions, the issue
policy raises, and the dispatcher returns false in all three raising
cases. -/
theorem repository_absence_amended_witness :
    pyGetItem evPRNoRepo.data "repository" = .error (PyErr.keyError "repository") ∧
    pyGetItem evPRSyncNoRepo.data "repository" = .error (PyErr.keyError "repository") ∧
    pyGetItem evIssueNoRepo.data "repository" = .error (PyErr.keyError "repository") ∧
    (handle_push_event oFail { evPRNoRepo with repository := "x/y" }).2 =
      (handle_push_event oFail evPRNoRepo).2 ∧
    handle_release_event oFail { evPRNoRepo with repository := "x/y" } =
      handle_release_event oFail evPRNoRepo ∧
    (handle_pull_request oFail evPRNoRepo).2 = Except.error (PyErr.keyError "repository") ∧
    (process_github_event oFail evPRNoRepo).2 = false ∧
    (handle_pull_request oFail evPRSyncNoRepo).2 = Except.error (PyErr.keyError "repository") ∧
    (process_github_event oFail evPRSyncNoRepo).2 = false ∧
    (handle_issue oFail evIssueNoRepo).2 = Except.error (PyErr.keyError "repository") ∧
    (process_github_event oFail evIssueNoRepo).2 = false := by
  obtain ⟨p1, p2, p3, _⟩ := repository_absence_amended oFail evPRNoRepo "x/y" rfl
  obtain ⟨_, _, q3, _⟩ := repository_absence_amended oFail evPRSyncNoRepo "x/y" rfl
  obtain ⟨_, _, _, s4⟩ := repository_absence_amended oFail evIssueNoRepo "x/y" rfl
  obtain ⟨p3a, p3b⟩ := p3 (Or.inl rfl)
  obtain ⟨q3a, q3b⟩ := q3 (Or.inr rfl)
  obtain ⟨s4a, s4b⟩ := s4 rfl
  exact ⟨rfl, rfl, rfl, p1, p2, p3a, p3b rfl, q3a, q3b rfl, s4a, s4b rfl⟩

/-- C7: when the push ref is refs/heads/main and the commit scan finds a
documentation-suffixed file, the policy fetches repository files with the
source-extension whitelist, requests documentation generation for at most
the first five fetched files regardless of how any generation call behaves
(so one failure never prevents the remaining attempts), and returns
success. -/
theorem push_doc_generation_flow (o : Oracle) (ev : GitHubEvent)
    (href : pyGetD ev.data "ref" Json.null = .ok (Json.str "refs/heads/main"))
    (hscan : pushScan ev.data = .ok true) :
    handle_push_event o ev =
      (Call.getRepoFiles (Json.str ev.repository) pushExts ::
        ((get_repository_files o (Json.str ev.repository) (some pushExts)).take 5).map
          (fun f => Call.gen (documentationPromptText f.content f.path)),
       .ok true) := by
  have hloop : ∀ l : List PyFile, pushDocLoop o l =
      l.map (fun f => Call.gen (documentationPromptText f.content f.path)) := by
    intro l
    induction l with
    | nil => rfl
    | cons f rest ih => simp [pushDocLoop, generate_documentation, ih]
  simp [handle_push_event, href, hscan, hloop]

/-- Witness for C7: a main-branch push touching README.md, with seven
fetched source files and a failing generator: five generation attempts are
still made and the policy succeeds. -/
theorem push_doc_generation_flow_witness :
    pyGetD evPush.data "ref" Json.null = .ok (Json.str "refs/heads/main") ∧
    pushScan evPush.data = .ok true ∧
    (get_repository_files oGenFail (Json.str "a/b") (some pushExts)).length = 7 ∧
    (handle_push_event oGenFail evPush).1.length = 6 ∧
    handle_push_event oGenFail evPush =
      (Call.getRepoFiles (Json.str evPush.repository) pushExts ::
        ((get_repository_files oGenFail (Json.str evPush.repository) (some pushExts)).take 5).map
          (fun f => Call.gen (documentationPromptText f.content f.path)),
       .ok true) :=
  ⟨rfl, rfl, rfl, rfl, push_doc_generation_flow oGenFail evPush rfl rfl⟩

/-- C9 counterexample: an issues opened event whose payload has no issue
body key does not reach prompt construction with an empty-string body; the
handler raises KeyError with no collaborator calls. -/
theorem issue_absent_body_raises :
    handle_issue oOk evIssueAbsent = ([], Except.error (PyErr.keyError "body")) :=
  rfl

/-- C9 amended: a present-but-null issue body is replaced by the empty
string in the triage prompt (no null value propagates), but an absent body
key makes the handler raise KeyError, which the dispatcher converts to
failure. -/
theorem issue_body_null_amended (o : Oracle) (evNull evAbsent : GitHubEvent)
    (repoName numberJ titleJ : Json)
    (h1a : evNull.action = "opened")
    (h1b : issueExtract evNull.data = .ok (repoName, numberJ, titleJ, Json.null))
    (h2a : evAbsent.action = "opened")
    (h2b : issueExtract evAbsent.data = .error (PyErr.keyError "body")) :
    (handle_issue o evNull).1.head? =
      some (Call.gen (issuePromptText (pyStr titleJ) "")) ∧
    handle_issue o evAbsent = ([], Except.error (PyErr.keyError "body")) := by
  constructor
  · unfold handle_issue
    rw [if_pos h1a]
    simp only [h1b]
    rw [show pyStr (pyOr Json.null (Json.str "")) = "" from rfl]
    cases hg : o.generateContent (issuePromptText (pyStr titleJ) "") with
    | ok t => simp [hg]
    | error e => simp [hg]
  · unfold handle_issue
    rw [if_pos h2a]
    simp [h2b]

/-- Witness for C9 amended: the concrete null-body and absent-body issue
events. -/
theorem issue_body_null_amended_witness :
    issueExtract evIssueNull.data =
      .ok (Json.str "a/b", Json.num 3, Json.str "crash on start", Json.null) ∧
    issueExtract evIssueAbsent.data = .error (PyErr.keyError "body") ∧
    ((handle_issue oOk evIssueNull).1.head? =
        some (Call.gen (issuePromptText (pyStr (Json.str "crash on start")) "")) ∧
      handle_issue oOk evIssueAbsent = ([], Except.error (PyErr.keyError "body"))) :=
  ⟨rfl, rfl,
   issue_body_null_amended oOk evIssueNull evIssueAbsent
     (Json.str "a/b") (Json.num 3) (Json.str "crash on start")
     rfl rfl rfl rfl⟩
